import Mathlib

/-!
Shallow embedding of the go-observability repository: a gateway service
(service-a) that validates a postal code and forwards it to a resolver
service (service-b), which queries a postal-lookup API (viacep) and a
weather API, converts the temperature and returns a combined payload.

JSON values are modelled as a small AST with rational numbers standing in
for float64 (all arithmetic in the source is exact over the inputs the
claims mention).  Decoding follows Go encoding/json semantics for the
struct shapes used by the source: absent or null fields keep the zero
value, a present field of the wrong type is an error, unknown object keys
are ignored, a duplicate key keeps the last occurrence, and unmarshalling
a non-object (other than null) into a struct is an error.

Each HTTP handler is a pure function of the request data together with
the outcomes of its upstream calls; it returns the list of responses it
writes (http.Error appends a newline, as fmt.Fprintln does) and flags
recording which upstream HTTP requests were actually issued.
-/

namespace GoObs

inductive Json where
  | null
  | jbool (b : Bool)
  | num (q : ℚ)
  | str (s : String)
  | arr (elems : List Json)
  | obj (fields : List (String × Json))

/-- Last-wins association lookup, as encoding/json keeps the last duplicate key. -/
def jLookup (fields : List (String × Json)) (key : String) : Option Json :=
  ((fields.filter (fun p => p.1 == key)).map (fun p => p.2)).getLast?

/-- Decode a string-typed struct field: absent or null keeps the zero value "". -/
def getStr (fields : List (String × Json)) (key : String) : Except String String :=
  match jLookup fields key with
  | none => .ok ""
  | some .null => .ok ""
  | some (.str s) => .ok s
  | some _ => .error ("cannot unmarshal field " ++ key ++ " into string")

/-- Decode a float64-typed struct field: absent or null keeps the zero value 0. -/
def getNum (fields : List (String × Json)) (key : String) : Except String ℚ :=
  match jLookup fields key with
  | none => .ok 0
  | some .null => .ok 0
  | some (.num q) => .ok q
  | some _ => .error ("cannot unmarshal field " ++ key ++ " into float64")

/-- Decode a bool-typed struct field: absent or null keeps the zero value false. -/
def getBool (fields : List (String × Json)) (key : String) : Except String Bool :=
  match jLookup fields key with
  | none => .ok false
  | some .null => .ok false
  | some (.jbool b) => .ok b
  | some _ => .error ("cannot unmarshal field " ++ key ++ " into bool")

/-- Decode an int-typed struct field: a JSON number with a fractional part is an error. -/
def getInt (fields : List (String × Json)) (key : String) : Except String Int :=
  match jLookup fields key with
  | none => .ok 0
  | some .null => .ok 0
  | some (.num q) => if q.den = 1 then .ok q.num else .error ("cannot unmarshal field " ++ key ++ " into int")
  | some _ => .error ("cannot unmarshal field " ++ key ++ " into int")

/-- ViaCepError from service-b: only the erro flag. -/
structure ViaCepError where
  erro : Bool

def decodeViaCepError : Json → Except String ViaCepError
  | .null => .ok ⟨false⟩
  | .obj fields => (getBool fields "erro").map (fun b => ⟨b⟩)
  | _ => .error "cannot unmarshal non-object into ViaCepError"

/-- ViaCep from service-b: the postal-lookup record; only localidade is consumed. -/
structure ViaCep where
  cep : String
  logradouro : String
  complemento : String
  bairro : String
  localidade : String
  uf : String
  ibge : String
  gia : String
  ddd : String
  siafi : String

def decodeViaCep : Json → Except String ViaCep
  | .null => .ok ⟨"", "", "", "", "", "", "", "", "", ""⟩
  | .obj fields => do
    let cep ← getStr fields "cep"
    let logradouro ← getStr fields "logradouro"
    let complemento ← getStr fields "complemento"
    let bairro ← getStr fields "bairro"
    let localidade ← getStr fields "localidade"
    let uf ← getStr fields "uf"
    let ibge ← getStr fields "ibge"
    let gia ← getStr fields "gia"
    let ddd ← getStr fields "ddd"
    let siafi ← getStr fields "siafi"
    pure ⟨cep, logradouro, complemento, bairro, localidade, uf, ibge, gia, ddd, siafi⟩
  | _ => .error "cannot unmarshal non-object into ViaCep"

/-- Weather.Location from service-b. -/
structure WeatherLocation where
  name : String
  region : String
  country : String
  lat : ℚ
  lon : ℚ
  tzID : String
  localtimeEpoch : Int
  localtime : String

def decodeWeatherLocation : Json → Except String WeatherLocation
  | .null => .ok ⟨"", "", "", 0, 0, "", 0, ""⟩
  | .obj fields => do
    let name ← getStr fields "name"
    let region ← getStr fields "region"
    let country ← getStr fields "country"
    let lat ← getNum fields "lat"
    let lon ← getNum fields "lon"
    let tzID ← getStr fields "tz_id"
    let localtimeEpoch ← getInt fields "localtime_epoch"
    let localtime ← getStr fields "localtime"
    pure ⟨name, region, country, lat, lon, tzID, localtimeEpoch, localtime⟩
  | _ => .error "cannot unmarshal non-object into Location"

/-- Weather.Current.Condition is an empty struct: any object (or null) decodes. -/
def decodeCondition : Json → Except String Unit
  | .null => .ok ()
  | .obj _ => .ok ()
  | _ => .error "cannot unmarshal non-object into Condition"

/-- Weather.Current from service-b: temp_c plus an empty condition struct. -/
structure WeatherCurrent where
  tempC : ℚ

def decodeWeatherCurrent : Json → Except String WeatherCurrent
  | .null => .ok ⟨0⟩
  | .obj fields => do
    let tempC ← getNum fields "temp_c"
    match jLookup fields "condition" with
    | none => pure ⟨tempC⟩
    | some c => do
        let _ ← decodeCondition c
        pure ⟨tempC⟩
  | _ => .error "cannot unmarshal non-object into Current"

/-- Weather from service-b: nested location and current blocks. -/
structure Weather where
  location : WeatherLocation
  current : WeatherCurrent

def decodeWeather : Json → Except String Weather
  | .null => .ok ⟨⟨"", "", "", 0, 0, "", 0, ""⟩, ⟨0⟩⟩
  | .obj fields => do
    let location ←
      match jLookup fields "location" with
      | none => pure (⟨"", "", "", 0, 0, "", 0, ""⟩ : WeatherLocation)
      | some l => decodeWeatherLocation l
    let current ←
      match jLookup fields "current" with
      | none => pure (⟨0⟩ : WeatherCurrent)
      | some c => decodeWeatherCurrent c
    pure ⟨location, current⟩
  | _ => .error "cannot unmarshal non-object into Weather"

/-- TemperatureWithCity: the output DTO shared by both services. -/
structure TemperatureWithCity where
  celsius : ℚ
  fahrenheit : ℚ
  kelvin : ℚ
  cityName : String

/-- Gateway-side decode of a resolver success body (service-a zipcodeHandler). -/
def decodeTemperatureWithCity : Json → Except String TemperatureWithCity
  | .null => .ok ⟨0, 0, 0, ""⟩
  | .obj fields => do
    let celsius ← getNum fields "temp_C"
    let fahrenheit ← getNum fields "temp_F"
    let kelvin ← getNum fields "temp_K"
    let cityName ← getStr fields "city"
    pure ⟨celsius, fahrenheit, kelvin, cityName⟩
  | _ => .error "cannot unmarshal non-object into TemperatureWithCity"

/-- json.Encoder output for TemperatureWithCity: the four tagged fields in declaration order. -/
def encodeTemperatureWithCity (t : TemperatureWithCity) : Json :=
  .obj [("temp_C", .num t.celsius), ("temp_F", .num t.fahrenheit),
        ("temp_K", .num t.kelvin), ("city", .str t.cityName)]

/-- Message: the gateway request body, a single cep field. -/
structure Message where
  zipCode : String

/-- A handler request body: either bytes that fail JSON parsing, or a parsed value. -/
inductive RequestBody where
  | malformed
  | wellFormed (j : Json)

def decodeRequestMessage : RequestBody → Except String Message
  | .malformed => .error "invalid JSON body"
  | .wellFormed .null => .ok ⟨""⟩
  | .wellFormed (.obj fields) => (getStr fields "cep").map (fun s => ⟨s⟩)
  | .wellFormed _ => .error "cannot unmarshal non-object into Message"

/-- The regexp check from both gateway variants. -/
def matchesZipCodeRegex (s : String) : Bool :=
  s.data.length == 8 && s.data.all Char.isDigit

/-- A body written on a response: plain text (http.Error) or an encoded JSON value. -/
inductive ResponseBody where
  | text (s : String)
  | jsonBody (j : Json)

structure HttpWrite where
  status : Nat
  body : ResponseBody

/-- http.Error writes the message followed by a newline (fmt.Fprintln). -/
def httpError (msg : String) (code : Nat) : HttpWrite :=
  ⟨code, .text (msg ++ "\n")⟩

/-- Outcome of one upstream HTTP exchange as seen by a handler. -/
inductive ReadBody where
  | readError
  | readOk (parsed : Option Json)

inductive UpstreamResult where
  | createError (msg : String)
  | transportError (msg : String)
  | response (status : Nat) (body : ReadBody)

/-- True when the outcome involved an HTTP request actually being issued
(http.NewRequestWithContext failing means no request left the service). -/
def requestIssued : UpstreamResult → Bool
  | .createError _ => false
  | _ => true

/-- service-b getViaCep: returns the responses it writes and the decoded record. -/
def getViaCep (_zipCode : String) (u : UpstreamResult) : List HttpWrite × Option ViaCep :=
  match u with
  | .createError msg => ([httpError ("Failed to create request (viacep): " ++ msg) 500], none)
  | .transportError msg => ([httpError ("Failed to make HTTP request (viacep): " ++ msg) 500], none)
  | .response status body =>
    if status ≠ 200 then ([httpError "Invalid zipcode" 422], none)
    else match body with
      | .readError => ([httpError "Failed to read response body: read error" 500], none)
      | .readOk none => ([httpError "Failed to decode response (viacep): invalid JSON" 500], none)
      | .readOk (some j) =>
        match decodeViaCepError j with
        | .error e => ([httpError ("Failed to decode response (viacep): " ++ e) 500], none)
        | .ok ve =>
          if ve.erro then ([httpError "Cannot find zipcode" 404], none)
          else match decodeViaCep j with
            | .error e => ([httpError ("Failed to decode response (viacep): " ++ e) 500], none)
            | .ok vc =>
              if vc.localidade = "" then ([httpError "Invalid zipcode" 422], none)
              else ([], some vc)

/-- service-b getWeather: a read failure surfaces through the JSON decoder. -/
def getWeather (_cityName : String) (u : UpstreamResult) : List HttpWrite × Option Weather :=
  match u with
  | .createError msg => ([httpError ("Failed to create request (weather): " ++ msg) 500], none)
  | .transportError msg => ([httpError ("Failed to make HTTP request (weather): " ++ msg) 500], none)
  | .response status body =>
    if status ≠ 200 then ([httpError "Invalid zipcode" 422], none)
    else match body with
      | .readError => ([httpError "Failed to decode response (weather): read error" 500], none)
      | .readOk none => ([httpError "Failed to decode response (weather): invalid JSON" 500], none)
      | .readOk (some j) =>
        match decodeWeather j with
        | .error e => ([httpError ("Failed to decode response (weather): " ++ e) 500], none)
        | .ok w => ([], some w)

/-- service-b validParams: only rejects an empty (missing) zipcode query parameter. -/
def validParams (zipcodeParam : String) : List HttpWrite × Bool :=
  if zipcodeParam = "" then ([httpError "Missing \x27zipcode\x27 parameter" 400], false)
  else ([], true)

structure ResolverInput where
  zipcodeParam : String
  viaCepUpstream : UpstreamResult
  weatherUpstream : UpstreamResult

structure ResolverRun where
  writes : List HttpWrite
  viaCepRequested : Bool
  weatherRequested : Bool

/-- service-b cityWeatherHandler: validate the parameter, resolve the city,
fetch the weather, convert units and emit the JSON payload. -/
def cityWeatherHandler (inp : ResolverInput) : ResolverRun :=
  match validParams inp.zipcodeParam with
  | (wr, false) => ⟨wr, false, false⟩
  | (_, true) =>
    let viaCalled := requestIssued inp.viaCepUpstream
    match getViaCep inp.zipcodeParam inp.viaCepUpstream with
    | (wr, none) => ⟨wr, viaCalled, false⟩
    | (_, some vc) =>
      let cityName := vc.localidade
      let weatherCalled := requestIssued inp.weatherUpstream
      match getWeather cityName inp.weatherUpstream with
      | (wr, none) => ⟨wr, viaCalled, weatherCalled⟩
      | (_, some w) =>
        let t : TemperatureWithCity :=
          ⟨w.current.tempC, w.current.tempC * 9 / 5 + 32, w.current.tempC + 273.15, cityName⟩
        ⟨[⟨200, .jsonBody (encodeTemperatureWithCity t)⟩], viaCalled, weatherCalled⟩

/-- Raw bytes of a response body as read by io.ReadAll on the non-OK path. -/
inductive ReadRaw where
  | readError
  | bytes (s : String)

/-- Outcome of the gateway call to the resolver: the raw bytes (read on the
non-OK path) and the parsed JSON (decoded on the OK path). -/
inductive ResolverCallResult where
  | createError (msg : String)
  | transportError (msg : String)
  | response (status : Nat) (raw : ReadRaw) (parsed : Option Json)

def resolverRequestIssued : ResolverCallResult → Bool
  | .createError _ => false
  | _ => true

structure GatewayRun where
  write : HttpWrite
  resolverRequested : Bool

/-- service-a zipcodeHandler: decode the body, validate the code, call the
resolver, relay errors, re-serialize the success payload. -/
def zipcodeHandler (body : RequestBody) (call : ResolverCallResult) : GatewayRun :=
  match decodeRequestMessage body with
  | .error e => ⟨httpError e 400, false⟩
  | .ok msg =>
    if !matchesZipCodeRegex msg.zipCode then ⟨httpError "Invalid zipcode" 422, false⟩
    else
      match call with
      | .createError e => ⟨httpError e 500, false⟩
      | .transportError e => ⟨httpError e 500, true⟩
      | .response status raw parsed =>
        if status ≠ 200 then
          match raw with
          | .readError => ⟨httpError "Failed to read response body" 500, true⟩
          | .bytes b => ⟨httpError b status, true⟩
        else
          match parsed with
          | none => ⟨httpError "invalid JSON from resolver" 500, true⟩
          | some j =>
            match decodeTemperatureWithCity j with
            | .error e => ⟨httpError e 500, true⟩
            | .ok t => ⟨⟨200, .jsonBody (encodeTemperatureWithCity t)⟩, true⟩

/-- Request-scoped context carrying an optional deadline and a cancellation flag. -/
structure Context where
  deadline : Option ℚ
  cancelled : Bool

/-- otel propagator.Extract only reads headers: the deadline and cancellation
scope of the context are unchanged. -/
def propagatorExtract (c : Context) : Context := c

/-- tracer.Start returns a child context sharing the parent cancellation scope. -/
def tracerStartCtx (c : Context) : Context := c

/-- Context passed to http.NewRequestWithContext in service-a zipcodeHandler:
extract then span start, no timeout is attached. -/
def outboundContextServiceA (inbound : Context) : Context :=
  tracerStartCtx (propagatorExtract inbound)

/-- Context passed to http.NewRequestWithContext in service-b getViaCep and
getWeather: the handler context with another extract and span start. -/
def outboundContextServiceB (inbound : Context) : Context :=
  tracerStartCtx (propagatorExtract (tracerStartCtx (propagatorExtract inbound)))

/-- Timeout of the http.Client used by service-a (a zero-value Client). -/
def gatewayClientTimeout : Option ℚ := none

/-- Timeout of http.DefaultClient used by service-b (zero value: none). -/
def resolverClientTimeout : Option ℚ := none

/-- ReadTimeout and WriteTimeout (seconds) both services set on their http.Server. -/
def serverReadTimeoutSeconds : ℚ := 5

def serverWriteTimeoutSeconds : ℚ := 5

/-- Sample viacep not-found body. -/
def viaCepErroTrueBody : Json := .obj [("erro", .jbool true)]

/-- Sample successful viacep body. -/
def viaCepSampleBody : Json :=
  .obj [("cep", .str "01001-000"), ("localidade", .str "Sao Paulo"), ("uf", .str "SP")]

/-- Sample successful weather body with temp_c 25. -/
def weatherSampleBody : Json :=
  .obj [("location", .obj [("name", .str "Sao Paulo")]),
        ("current", .obj [("temp_c", .num 25)])]

/-- Every run of getViaCep either succeeds writing nothing, or writes exactly
one plain-text error response and returns no record. -/
theorem getViaCep_cases (z : String) (u : UpstreamResult) :
    (∃ vc, getViaCep z u = ([], some vc)) ∨
    (∃ s m, getViaCep z u = ([⟨s, .text m⟩], none)) := by
  cases u with
  | createError msg => exact Or.inr ⟨_, _, rfl⟩
  | transportError msg => exact Or.inr ⟨_, _, rfl⟩
  | response status body =>
    by_cases hs : status ≠ 200
    · exact Or.inr ⟨422, "Invalid zipcode" ++ "\n", by simp [getViaCep, hs, httpError]⟩
    · cases body with
      | readError =>
        exact Or.inr ⟨500, "Failed to read response body: read error" ++ "\n",
          by simp [getViaCep, hs, httpError]⟩
      | readOk parsed =>
        cases parsed with
        | none =>
          exact Or.inr ⟨500, "Failed to decode response (viacep): invalid JSON" ++ "\n",
            by simp [getViaCep, hs, httpError]⟩
        | some j =>
          rcases he : decodeViaCepError j with e | ve
          · exact Or.inr ⟨500, "Failed to decode response (viacep): " ++ e ++ "\n",
              by simp [getViaCep, hs, he, httpError]⟩
          · by_cases herr : ve.erro
            · exact Or.inr ⟨404, "Cannot find zipcode" ++ "\n",
                by simp [getViaCep, hs, he, herr, httpError]⟩
            · rcases hv : decodeViaCep j with e | vc
              · exact Or.inr ⟨500, "Failed to decode response (viacep): " ++ e ++ "\n",
                  by simp [getViaCep, hs, he, herr, hv, httpError]⟩
              · by_cases hl : vc.localidade = ""
                · exact Or.inr ⟨422, "Invalid zipcode" ++ "\n",
                    by simp [getViaCep, hs, he, herr, hv, hl, httpError]⟩
                · exact Or.inl ⟨vc, by simp [getViaCep, hs, he, herr, hv, hl]⟩

/-- Every run of getWeather either succeeds writing nothing, or writes exactly
one plain-text error response and returns no reading. -/
theorem getWeather_cases (c : String) (u : UpstreamResult) :
    (∃ w, getWeather c u = ([], some w)) ∨
    (∃ s m, getWeather c u = ([⟨s, .text m⟩], none)) := by
  cases u with
  | createError msg => exact Or.inr ⟨_, _, rfl⟩
  | transportError msg => exact Or.inr ⟨_, _, rfl⟩
  | response status body =>
    by_cases hs : status ≠ 200
    · exact Or.inr ⟨422, "Invalid zipcode" ++ "\n", by simp [getWeather, hs, httpError]⟩
    · cases body with
      | readError =>
        exact Or.inr ⟨500, "Failed to decode response (weather): read error" ++ "\n",
          by simp [getWeather, hs, httpError]⟩
      | readOk parsed =>
        cases parsed with
        | none =>
          exact Or.inr ⟨500, "Failed to decode response (weather): invalid JSON" ++ "\n",
            by simp [getWeather, hs, httpError]⟩
        | some j =>
          rcases he : decodeWeather j with e | w
          · exact Or.inr ⟨500, "Failed to decode response (weather): " ++ e ++ "\n",
              by simp [getWeather, hs, he, httpError]⟩
          · exact Or.inl ⟨w, by simp [getWeather, hs, he]⟩

/-- Unfolding of cityWeatherHandler for a non-empty zipcode parameter. -/
theorem cityWeatherHandler_ne (zip : String) (vu wu : UpstreamResult) (hz : zip ≠ "") :
    cityWeatherHandler ⟨zip, vu, wu⟩ =
      (match getViaCep zip vu with
       | (wr, none) => ⟨wr, requestIssued vu, false⟩
       | (_, some vc) =>
         match getWeather vc.localidade wu with
         | (wr, none) => ⟨wr, requestIssued vu, requestIssued wu⟩
         | (_, some w) =>
           ⟨[⟨200, .jsonBody (encodeTemperatureWithCity
               ⟨w.current.tempC, w.current.tempC * 9 / 5 + 32,
                w.current.tempC + 273.15, vc.localidade⟩)⟩],
            requestIssued vu, requestIssued wu⟩ : ResolverRun) := by
  simp only [cityWeatherHandler, validParams, if_neg hz]

/-- getViaCep on an OK response whose body decodes with the erro flag set
writes the 404 not-found error. -/
theorem getViaCep_erro (z : String) (j : Json) (h : decodeViaCepError j = .ok ⟨true⟩) :
    getViaCep z (.response 200 (.readOk (some j))) =
      ([httpError "Cannot find zipcode" 404], none) := by
  simp [getViaCep, h]

/-- getViaCep on an OK response with no erro flag and an empty localidade
writes the 422 invalid-zipcode error. -/
theorem getViaCep_emptyLocality (z : String) (j : Json) (vc : ViaCep)
    (h1 : decodeViaCepError j = .ok ⟨false⟩) (h2 : decodeViaCep j = .ok vc)
    (h3 : vc.localidade = "") :
    getViaCep z (.response 200 (.readOk (some j))) =
      ([httpError "Invalid zipcode" 422], none) := by
  simp [getViaCep, h1, h2, h3]

/-- Claim C1, counterexample: on a postal-lookup body with erro true the
resolver responds 404, not 422 as claimed (the weather API is indeed not
called). -/
theorem c1_counterexample :
    (cityWeatherHandler ⟨"12345678", .response 200 (.readOk (some viaCepErroTrueBody)),
        .transportError "unused"⟩).writes.map HttpWrite.status = [404] ∧
    (404 : Nat) ≠ 422 ∧
    (cityWeatherHandler ⟨"12345678", .response 200 (.readOk (some viaCepErroTrueBody)),
        .transportError "unused"⟩).weatherRequested = false := by
  refine ⟨rfl, by decide, rfl⟩

/-- Claim C1 (amended): when the postal-lookup response body has the erro
flag the resolver responds 404 and the weather API is never called; when it
decodes with an empty locality name the resolver responds 422 and the
weather API is never called. -/
theorem c1_notFound_vs_emptyLocality (zip : String) (j : Json) (wu : UpstreamResult)
    (hz : zip ≠ "") :
    (decodeViaCepError j = .ok ⟨true⟩ →
      (cityWeatherHandler ⟨zip, .response 200 (.readOk (some j)), wu⟩).writes.map
          HttpWrite.status = [404] ∧
      (cityWeatherHandler ⟨zip, .response 200 (.readOk (some j)), wu⟩).weatherRequested
        = false) ∧
    (∀ vc : ViaCep, decodeViaCepError j = .ok ⟨false⟩ → decodeViaCep j = .ok vc →
      vc.localidade = "" →
      (cityWeatherHandler ⟨zip, .response 200 (.readOk (some j)), wu⟩).writes.map
          HttpWrite.status = [422] ∧
      (cityWeatherHandler ⟨zip, .response 200 (.readOk (some j)), wu⟩).weatherRequested
        = false) := by
  constructor
  · intro h
    rw [cityWeatherHandler_ne _ _ _ hz, getViaCep_erro _ _ h]
    exact ⟨rfl, rfl⟩
  · intro vc h1 h2 h3
    rw [cityWeatherHandler_ne _ _ _ hz, getViaCep_emptyLocality _ _ _ h1 h2 h3]
    exact ⟨rfl, rfl⟩

/-- Claim C1, witness: the amended statement evaluated on the sample
not-found body. -/
theorem c1_witness :
    (cityWeatherHandler ⟨"01001000", .response 200 (.readOk (some viaCepErroTrueBody)),
        .response 200 (.readOk (some weatherSampleBody))⟩).writes.map
        HttpWrite.status = [404] ∧
    (cityWeatherHandler ⟨"01001000", .response 200 (.readOk (some viaCepErroTrueBody)),
        .response 200 (.readOk (some weatherSampleBody))⟩).weatherRequested = false :=
  (c1_notFound_vs_emptyLocality "01001000" viaCepErroTrueBody
    (.response 200 (.readOk (some weatherSampleBody))) (by decide)).1 rfl

/-- Claim C2, counterexample: for the non-matching postal code "123" the
resolver does issue its postal-lookup call (and can even answer 200), since
validParams only rejects an empty parameter. -/
theorem c2_counterexample :
    matchesZipCodeRegex "123" = false ∧
    (cityWeatherHandler ⟨"123", .response 200 (.readOk (some viaCepSampleBody)),
        .response 200 (.readOk (some weatherSampleBody))⟩).viaCepRequested = true ∧
    (cityWeatherHandler ⟨"123", .response 200 (.readOk (some viaCepSampleBody)),
        .response 200 (.readOk (some weatherSampleBody))⟩).writes.map
        HttpWrite.status = [200] := by
  refine ⟨by decide, rfl, rfl⟩

/-- Claim C2 (amended): the gateway responds 422 without its outbound call
for every postal code not matching the 8-digit regexp; the resolver only
validates non-emptiness: an empty (missing) code yields 400 with no upstream
contact, while any non-empty code leads it to issue the postal-lookup
request (whenever request creation succeeds). -/
theorem c2_format_validation :
    (∀ (body : RequestBody) (m : Message) (call : ResolverCallResult),
      decodeRequestMessage body = .ok m → matchesZipCodeRegex m.zipCode = false →
      zipcodeHandler body call = ⟨httpError "Invalid zipcode" 422, false⟩) ∧
    (∀ vu wu : UpstreamResult,
      cityWeatherHandler ⟨"", vu, wu⟩ =
        ⟨[httpError "Missing \x27zipcode\x27 parameter" 400], false, false⟩) ∧
    (∀ (zip : String) (vu wu : UpstreamResult), zip ≠ "" → requestIssued vu = true →
      (cityWeatherHandler ⟨zip, vu, wu⟩).viaCepRequested = true) := by
  refine ⟨?_, ?_, ?_⟩
  · intro body m call hd hm
    simp [zipcodeHandler, hd, hm]
  · intro vu wu
    simp [cityWeatherHandler, validParams]
  · intro zip vu wu hz hreq
    rw [cityWeatherHandler_ne _ _ _ hz]
    rcases getViaCep_cases zip vu with ⟨vc, h⟩ | ⟨s, m, h⟩
    · rw [h]
      rcases getWeather_cases vc.localidade wu with ⟨w, hw⟩ | ⟨s, m, hw⟩ <;>
        simp [hw, hreq]
    · rw [h]
      exact hreq

/-- Claim C2, witness: gateway behaviour of the amended statement on the
concrete non-matching code "123". -/
theorem c2_witness :
    zipcodeHandler (.wellFormed (.obj [("cep", .str "123")])) (.transportError "unused") =
      ⟨httpError "Invalid zipcode" 422, false⟩ :=
  c2_format_validation.1 (.wellFormed (.obj [("cep", .str "123")])) ⟨"123"⟩
    (.transportError "unused") rfl (by decide)

/-- Claim C3, counterexample: with the city resolved, a non-OK weather API
status (503) makes the resolver respond 422, which is not a 5xx status. -/
theorem c3_counterexample :
    (cityWeatherHandler ⟨"01001000", .response 200 (.readOk (some viaCepSampleBody)),
        .response 503 (.readOk (some (.obj [])))⟩).writes.map HttpWrite.status = [422] ∧
    (422 : Nat) < 500 := ⟨rfl, by decide⟩

/-- Claim C3 (amended): when the weather call transport-fails the resolver
responds 500; when the weather API returns a non-OK status the resolver
responds 422 (labelled Invalid zipcode); a malformed weather body yields
500. -/
theorem c3_weather_failure_statuses (zip : String) (vu wu : UpstreamResult) (vc : ViaCep)
    (hz : zip ≠ "") (hv : getViaCep zip vu = ([], some vc)) :
    (∀ msg, wu = .transportError msg →
      (cityWeatherHandler ⟨zip, vu, wu⟩).writes.map HttpWrite.status = [500]) ∧
    (∀ (s : Nat) (b : ReadBody), wu = .response s b → s ≠ 200 →
      (cityWeatherHandler ⟨zip, vu, wu⟩).writes.map HttpWrite.status = [422]) ∧
    (wu = .response 200 (.readOk none) →
      (cityWeatherHandler ⟨zip, vu, wu⟩).writes.map HttpWrite.status = [500]) := by
  refine ⟨?_, ?_, ?_⟩
  · intro msg h
    subst h
    rw [cityWeatherHandler_ne _ _ _ hz, hv]
    simp [getWeather, httpError]
  · intro s b h hs
    subst h
    rw [cityWeatherHandler_ne _ _ _ hz, hv]
    simp [getWeather, hs, httpError]
  · intro h
    subst h
    rw [cityWeatherHandler_ne _ _ _ hz, hv]
    simp [getWeather, httpError]

/-- Claim C3, witness: the amended statement evaluated at a 503 weather
response. -/
theorem c3_witness :
    (cityWeatherHandler ⟨"01001000", .response 200 (.readOk (some viaCepSampleBody)),
        .response 503 (.readOk none)⟩).writes.map HttpWrite.status = [422] :=
  (c3_weather_failure_statuses "01001000"
      (.response 200 (.readOk (some viaCepSampleBody))) (.response 503 (.readOk none))
      ⟨"01001-000", "", "", "", "Sao Paulo", "SP", "", "", "", ""⟩
      (by decide) rfl).2.1 503 (.readOk none) rfl (by decide)

/-- Claim C4 (confirmed): the emitted TemperatureReport satisfies
Fahrenheit = C*9/5+32 and Kelvin = C+273.15, and at C = 25 these give 77
and 298.15 exactly. -/
theorem c4_temperature_conversion (zip : String) (vu wu : UpstreamResult)
    (vc : ViaCep) (w : Weather) (hz : zip ≠ "")
    (hv : getViaCep zip vu = ([], some vc))
    (hw : getWeather vc.localidade wu = ([], some w)) :
    (cityWeatherHandler ⟨zip, vu, wu⟩).writes =
      [⟨200, .jsonBody (encodeTemperatureWithCity
        ⟨w.current.tempC, w.current.tempC * 9 / 5 + 32,
         w.current.tempC + 273.15, vc.localidade⟩)⟩] ∧
    (25 : ℚ) * 9 / 5 + 32 = 77 ∧ (25 : ℚ) + 273.15 = 298.15 := by
  refine ⟨?_, by norm_num, by norm_num⟩
  rw [cityWeatherHandler_ne _ _ _ hz]
  simp [hv, hw]

/-- Claim C4, witness: the full pipeline on a weather body with temp_c 25. -/
theorem c4_witness :
    (cityWeatherHandler ⟨"01001000", .response 200 (.readOk (some viaCepSampleBody)),
        .response 200 (.readOk (some weatherSampleBody))⟩).writes =
      [⟨200, .jsonBody (encodeTemperatureWithCity
        ⟨(25 : ℚ), (25 : ℚ) * 9 / 5 + 32, (25 : ℚ) + 273.15, "Sao Paulo"⟩)⟩] ∧
    (25 : ℚ) * 9 / 5 + 32 = 77 ∧ (25 : ℚ) + 273.15 = 298.15 :=
  c4_temperature_conversion "01001000"
    (.response 200 (.readOk (some viaCepSampleBody)))
    (.response 200 (.readOk (some weatherSampleBody)))
    ⟨"01001-000", "", "", "", "Sao Paulo", "SP", "", "", "", ""⟩
    ⟨⟨"Sao Paulo", "", "", 0, 0, "", 0, ""⟩, ⟨25⟩⟩
    (by decide) rfl rfl

/-- Claim C5, counterexample: relaying goes through http.Error, which appends
a newline, so the relayed body is not byte-for-byte identical to the
resolver body. -/
theorem c5_counterexample :
    zipcodeHandler (.wellFormed (.obj [("cep", .str "12345678")]))
        (.response 422 (.bytes ("Invalid zipcode" ++ "\n")) none) =
      ⟨⟨422, .text ("Invalid zipcode" ++ "\n" ++ "\n")⟩, true⟩ ∧
    "Invalid zipcode" ++ "\n" ++ "\n" ≠ "Invalid zipcode" ++ "\n" :=
  ⟨rfl, by decide⟩

/-- Claim C5 (amended): on a non-OK resolver response the gateway relays the
status code exactly and the body with a single trailing newline appended by
http.Error. -/
theorem c5_error_relay (body : RequestBody) (m : Message) (status : Nat) (b : String)
    (parsed : Option Json) (hd : decodeRequestMessage body = .ok m)
    (hm : matchesZipCodeRegex m.zipCode = true) (hs : status ≠ 200) :
    zipcodeHandler body (.response status (.bytes b) parsed) =
      ⟨⟨status, .text (b ++ "\n")⟩, true⟩ := by
  simp [zipcodeHandler, hd, hm, hs, httpError]

/-- Claim C5, witness: the amended statement at a concrete 404 resolver
response. -/
theorem c5_witness :
    zipcodeHandler (.wellFormed (.obj [("cep", .str "01001000")]))
        (.response 404 (.bytes ("Cannot find zipcode" ++ "\n")) none) =
      ⟨⟨404, .text ("Cannot find zipcode" ++ "\n" ++ "\n")⟩, true⟩ :=
  c5_error_relay (.wellFormed (.obj [("cep", .str "01001000")])) ⟨"01001000"⟩
    404 ("Cannot find zipcode" ++ "\n") none rfl (by decide) (by decide)

/-- Claim C6, counterexample: a well-formed body missing the cep field
decodes to an empty code, so the gateway responds 422, not 400. -/
theorem c6_counterexample :
    (zipcodeHandler (.wellFormed (.obj [])) (.transportError "unused")).write.status = 422 ∧
    (422 : Nat) ≠ 400 := ⟨rfl, by decide⟩

/-- Claim C6 (amended): an unparsable gateway body yields 400, while a
well-formed body missing the postal-code field decodes to the empty string
and fails format validation with 422. -/
theorem c6_body_validation :
    (∀ call, (zipcodeHandler .malformed call).write.status = 400) ∧
    (∀ (fields : List (String × Json)) (call : ResolverCallResult),
      jLookup fields "cep" = none →
      zipcodeHandler (.wellFormed (.obj fields)) call =
        ⟨httpError "Invalid zipcode" 422, false⟩) := by
  constructor
  · intro call
    rfl
  · intro fields call h
    simp [zipcodeHandler, decodeRequestMessage, getStr, h, Except.map, matchesZipCodeRegex]

/-- Claim C6, witness: the amended statement at a body holding only an
unrelated field. -/
theorem c6_witness :
    zipcodeHandler (.wellFormed (.obj [("other", .num 1)])) (.transportError "unused") =
      ⟨httpError "Invalid zipcode" 422, false⟩ :=
  c6_body_validation.2 [("other", .num 1)] (.transportError "unused") rfl

/-- Decoding the encoded TemperatureWithCity payload is the identity. -/
theorem decode_encode_temperature (t : TemperatureWithCity) :
    decodeTemperatureWithCity (encodeTemperatureWithCity t) = .ok t := rfl

/-- Claim C7 (confirmed): the gateway decodes a successful resolver response
and re-serializes it with identical values of the four fields city, temp_C,
temp_F, temp_K. -/
theorem c7_round_trip (body : RequestBody) (m : Message) (t : TemperatureWithCity)
    (raw : ReadRaw) (hd : decodeRequestMessage body = .ok m)
    (hm : matchesZipCodeRegex m.zipCode = true) :
    zipcodeHandler body (.response 200 raw (some (encodeTemperatureWithCity t))) =
      ⟨⟨200, .jsonBody (encodeTemperatureWithCity t)⟩, true⟩ := by
  simp [zipcodeHandler, hd, hm, decode_encode_temperature]

/-- Claim C7, witness: the round trip on a concrete payload. -/
theorem c7_witness :
    zipcodeHandler (.wellFormed (.obj [("cep", .str "01001000")]))
        (.response 200 (.bytes "ignored")
          (some (encodeTemperatureWithCity ⟨25, 77, 29815/100, "Sao Paulo"⟩))) =
      ⟨⟨200, .jsonBody (encodeTemperatureWithCity ⟨25, 77, 29815/100, "Sao Paulo"⟩)⟩, true⟩ :=
  c7_round_trip (.wellFormed (.obj [("cep", .str "01001000")])) ⟨"01001000"⟩
    ⟨25, 77, 29815/100, "Sao Paulo"⟩ (.bytes "ignored") rfl (by decide)

/-- Claim C8, counterexample: an inbound context without a deadline reaches
the outbound request still without any deadline, and neither outbound HTTP
client sets a timeout: outbound calls carry no 5-second bound. -/
theorem c8_counterexample :
    (outboundContextServiceA ⟨none, false⟩).deadline = none ∧
    (outboundContextServiceB ⟨none, false⟩).deadline = none ∧
    gatewayClientTimeout = none ∧ resolverClientTimeout = none :=
  ⟨rfl, rfl, rfl, rfl⟩

/-- Claim C8 (amended): both services pass the inbound request context
unchanged to their outbound calls, so cancelling the inbound request cancels
the outbound call; but no timeout is attached to outbound calls — the
5-second values configure the HTTP servers read and write timeouts. -/
theorem c8_context_propagation (c : Context) :
    outboundContextServiceA c = c ∧ outboundContextServiceB c = c ∧
    (outboundContextServiceA c).cancelled = c.cancelled ∧
    (outboundContextServiceB c).cancelled = c.cancelled ∧
    gatewayClientTimeout = none ∧ resolverClientTimeout = none ∧
    serverReadTimeoutSeconds = 5 ∧ serverWriteTimeoutSeconds = 5 :=
  ⟨rfl, rfl, rfl, rfl, rfl, rfl, rfl, rfl⟩

/-- Claim C9 (confirmed): every resolver request produces exactly one written
response, and that response is the success JSON payload precisely when the
parameter check passes and both helpers return a value. -/
theorem c9_single_response (inp : ResolverInput) :
    (cityWeatherHandler inp).writes.length = 1 ∧
    ((∃ j, (cityWeatherHandler inp).writes = [⟨200, .jsonBody j⟩]) ↔
      ((validParams inp.zipcodeParam).2 = true ∧
       ∃ vc w, (getViaCep inp.zipcodeParam inp.viaCepUpstream).2 = some vc ∧
               (getWeather vc.localidade inp.weatherUpstream).2 = some w)) := by
  obtain ⟨zip, vu, wu⟩ := inp
  by_cases hz : zip = ""
  · subst hz
    refine ⟨rfl, ?_⟩
    constructor
    · rintro ⟨j, hj⟩
      simp [cityWeatherHandler, validParams, httpError] at hj
    · rintro ⟨hvp, -⟩
      simp [validParams] at hvp
  · rw [cityWeatherHandler_ne _ _ _ hz]
    rcases getViaCep_cases zip vu with ⟨vc, h⟩ | ⟨s, m, h⟩
    · rcases getWeather_cases vc.localidade wu with ⟨w, hw⟩ | ⟨s, m, hw⟩
      · simp [h, hw, validParams, hz]
      · simp [h, hw, validParams, hz]
    · simp [h, validParams, hz]

/-- Claim C10 (confirmed): on a 200 resolver response whose JSON object may
lack some of the four fields or carry extra ones, the gateway still responds
200; absent fields come out as zero values and unknown fields are dropped. -/
theorem c10_partial_body (body : RequestBody) (m : Message) (fields : List (String × Json))
    (raw : ReadRaw) (qc qf qk : ℚ) (city : String)
    (hd : decodeRequestMessage body = .ok m) (hm : matchesZipCodeRegex m.zipCode = true)
    (h1 : getNum fields "temp_C" = .ok qc) (h2 : getNum fields "temp_F" = .ok qf)
    (h3 : getNum fields "temp_K" = .ok qk) (h4 : getStr fields "city" = .ok city) :
    zipcodeHandler body (.response 200 raw (some (.obj fields))) =
      ⟨⟨200, .jsonBody (.obj [("temp_C", .num qc), ("temp_F", .num qf),
                              ("temp_K", .num qk), ("city", .str city)])⟩, true⟩ := by
  simp [zipcodeHandler, hd, hm, decodeTemperatureWithCity, h1, h2, h3, h4,
    encodeTemperatureWithCity]
  rfl

/-- Claim C10, witness: a body with only temp_C plus an unknown field still
yields 200, with the other three fields zero-valued and the extra dropped. -/
theorem c10_witness :
    zipcodeHandler (.wellFormed (.obj [("cep", .str "01001000")]))
        (.response 200 (.bytes "ignored")
          (some (.obj [("temp_C", .num 10), ("extra", .str "x")]))) =
      ⟨⟨200, .jsonBody (.obj [("temp_C", .num 10), ("temp_F", .num 0),
                              ("temp_K", .num 0), ("city", .str "")])⟩, true⟩ :=
  c10_partial_body (.wellFormed (.obj [("cep", .str "01001000")])) ⟨"01001000"⟩
    [("temp_C", .num 10), ("extra", .str "x")] (.bytes "ignored") 10 0 0 ""
    rfl (by decide) rfl rfl rfl rfl

end GoObs
